import Mathlib

/-!
Verification of the NMEA GPS sentence acquisition and decoding pipeline.

Strings from the source are modelled as lists of bytes (`List Nat`, each
element < 256; the NMEA wire format is ASCII).  Fallible code is modelled
in the `Option` monad: a `none` produced by a function standing for a Rust
function models a panic (an unwrap on `None`/`Err`, an out-of-bounds slice,
or an explicit `panic!`).  Rust `Option` results are modelled as a nested
`Option`, so `some none` is Rust's `None` and the outer `none` is a panic.
Floating point values (`f32`/`f64`) are modelled as exact rationals; the
non-finite results of parsing "inf"/"nan" tokens are collapsed to `0`
(only parse success/failure is relied upon for such tokens).
-/

set_option maxRecDepth 100000

namespace AdafruitGps

attribute [local semireducible] Rat.mul Rat.add Rat.inv Rat.sub

/-- Byte string of an ASCII Lean string literal. -/
def ascii (s : String) : List Nat := s.data.map Char.toNat

/-- ASCII whitespace bytes, as recognised by `str::trim` on ASCII text. -/
def isWsByte (c : Nat) : Bool := c = 9 || c = 10 || c = 11 || c = 12 || c = 13 || c = 32

/-- Model of `str::trim`: drop whitespace from both ends. -/
def trimAscii (s : List Nat) : List Nat :=
  ((s.dropWhile isWsByte).reverse.dropWhile isWsByte).reverse

/-- Model of `Vec::get(a..b)`: `Some` exactly when `a ≤ b ≤ len`.  It also
stands for the header slices `&header[3..5]` / `&header[3..6]` inside the
GGA/GSA/GSV decoders, where a char-boundary panic and a header-mismatch
fault coincide (on valid UTF-8 a boundary violation there forces a byte
mismatch, and both end in the decoder's panic); the dispatcher's header
slicing, where that distinction is observable, uses `sliceStr`. -/
def sliceR {α : Type} (l : List α) (a b : Nat) : Option (List α) :=
  if a ≤ b ∧ b ≤ l.length then some ((l.drop a).take (b - a)) else none

/-- Model of `str::is_char_boundary`: index 0 is always a boundary, the end
of the string is, and an interior index is one exactly when its byte is not
a UTF-8 continuation byte. -/
def isCharBoundary (l : List Nat) (p : Nat) : Bool :=
  if p = 0 then true
  else
    match l.get? p with
    | none => p = l.length
    | some b => b < 128 || 192 ≤ b

/-- Model of `str` range slicing `s[a..b]`: defined exactly when
`a ≤ b ≤ len` and both endpoints are char boundaries; out of range or a
boundary violation is a panic, which the caller surfaces as `none`. -/
def sliceStr (l : List Nat) (a b : Nat) : Option (List Nat) :=
  if a ≤ b ∧ b ≤ l.length ∧ isCharBoundary l a ∧ isCharBoundary l b then
    some ((l.drop a).take (b - a))
  else none

/-- Decimal digit byte. -/
def isDigitB (c : Nat) : Bool := 48 ≤ c && c ≤ 57

/-- Hexadecimal digit byte (either case). -/
def isHexDigitB (c : Nat) : Bool :=
  isDigitB c || (65 ≤ c && c ≤ 70) || (97 ≤ c && c ≤ 102)

/-- Value of a hexadecimal digit byte. -/
def hexVal (c : Nat) : Nat :=
  if isDigitB c then c - 48 else if 65 ≤ c && c ≤ 70 then c - 55 else c - 87

/-- Digit-fold part of `u8::from_str_radix(_, 16)` with the `u8` overflow check. -/
def fromStrRadix16Digits : List Nat → Nat → Option Nat
  | [], acc => some acc
  | c :: cs, acc =>
    if isHexDigitB c then
      let acc' := acc * 16 + hexVal c
      if acc' < 256 then fromStrRadix16Digits cs acc' else none
    else none

/-- Model of `u8::from_str_radix(s, 16)`: optional sign (`-` only for value 0),
then one or more hex digits, `u8` range enforced. -/
def fromStrRadix16 (s : List Nat) : Option Nat :=
  match s with
  | [] => none
  | 43 :: rest => if rest = [] then none else fromStrRadix16Digits rest 0
  | 45 :: rest =>
    (if rest = [] then none else fromStrRadix16Digits rest 0).bind
      fun v => if v = 0 then some 0 else none
  | _ => fromStrRadix16Digits s 0

/-- Value of a decimal digit string. -/
def natOfDigits (l : List Nat) : Nat := l.foldl (fun a c => a * 10 + (c - 48)) 0

/-- Exponent suffix of the Rust float grammar: empty, or `e`/`E`, optional
sign, one or more digits. -/
def parseExpPart (s : List Nat) : Option Int :=
  match s with
  | [] => some 0
  | c :: rest =>
    if c = 101 ∨ c = 69 then
      match rest with
      | 43 :: ds => if ds ≠ [] ∧ ds.all isDigitB then some (natOfDigits ds) else none
      | 45 :: ds => if ds ≠ [] ∧ ds.all isDigitB then some (-(natOfDigits ds : Int)) else none
      | ds => if ds ≠ [] ∧ ds.all isDigitB then some (natOfDigits ds) else none
    else none

/-- Unsigned decimal number of the Rust float grammar:
`Digits [. Digits?] Exp?` or `. Digits Exp?`, value as an exact rational. -/
def parseNumber (s : List Nat) : Option ℚ :=
  let ip := s.takeWhile isDigitB
  let rest1 := s.dropWhile isDigitB
  match rest1 with
  | 46 :: rest2 =>
    let fp := rest2.takeWhile isDigitB
    let rest3 := rest2.dropWhile isDigitB
    if ip = [] ∧ fp = [] then none
    else
      (parseExpPart rest3).map fun e =>
        ((natOfDigits ip : ℚ) + (natOfDigits fp : ℚ) / (10 : ℚ) ^ fp.length) * (10 : ℚ) ^ e
  | _ =>
    if ip = [] then none
    else (parseExpPart rest1).map fun e => (natOfDigits ip : ℚ) * (10 : ℚ) ^ e

/-- Case-insensitive `inf`/`infinity`/`nan` keywords of the Rust float grammar. -/
def isSpecialFloat (s : List Nat) : Bool :=
  let l := s.map fun c => if 65 ≤ c ∧ c ≤ 90 then c + 32 else c
  l = ascii "inf" || l = ascii "infinity" || l = ascii "nan"

/-- Unsigned part of `str::parse::<f32>` / `::<f64>` (non-finite values
collapsed to `0`; only parse success matters on those inputs). -/
def parseFloatCore (s : List Nat) : Option ℚ :=
  if isSpecialFloat s then some 0 else parseNumber s

/-- Model of `str::parse::<f32>` / `str::parse::<f64>`. -/
def parseFloat (s : List Nat) : Option ℚ :=
  match s with
  | 43 :: rest => parseFloatCore rest
  | 45 :: rest => (parseFloatCore rest).map fun q => -q
  | _ => parseFloatCore s

/-- Digit run for integer parsing: one or more decimal digits. -/
def decDigitsVal (l : List Nat) : Option Nat :=
  if l ≠ [] ∧ l.all isDigitB then some (natOfDigits l) else none

/-- Model of `str::parse::<i32>`: optional sign, digits, `i32` range check. -/
def parseI32 (s : List Nat) : Option Int :=
  match s with
  | 43 :: rest => (decDigitsVal rest).bind fun v =>
      if v ≤ 2147483647 then some (v : Int) else none
  | 45 :: rest => (decDigitsVal rest).bind fun v =>
      if v ≤ 2147483648 then some (-(v : Int)) else none
  | _ => (decDigitsVal s).bind fun v =>
      if v ≤ 2147483647 then some (v : Int) else none

/-- XOR of a byte list, as the checksum loop `actual ^= *i` computes it. -/
def xorBytes (l : List Nat) : Nat := l.foldl (fun a c => a ^^^ c) 0

/-- Model of `gps::is_valid_checksum`.  The input is trimmed, the last three
bytes are read as `*XY`, the expected checksum is the hex value `XY`, and the
actual checksum is the XOR of the body bytes after the leading `$`.  `none`
models the panics of the source: the length-underflow slices when the trimmed
input is shorter than 3, and the slice `body[1..]` when the body is empty. -/
def is_valid_checksum (s : List Nat) : Option Bool :=
  let t := trimAscii s
  if t.length < 3 then none
  else
    let star := (t.drop (t.length - 3)).take 1
    let checksum := t.drop (t.length - 2)
    let body := t.take (t.length - 3)
    if star ≠ [42] then some false
    else
      match fromStrRadix16 checksum with
      | some expected =>
        if body = [] then none
        else some (decide (xorBytes (body.drop 1) = expected))
      | none => some false

/-- Split a byte list on a separator byte, preserving empty tokens
(model of `str::split`). -/
def splitByte (b : Nat) : List Nat → List (List Nat)
  | [] => [[]]
  | c :: cs =>
    if c = b then [] :: splitByte b cs
    else
      match splitByte b cs with
      | [] => [[c]]
      | f :: rest => (c :: f) :: rest

/-- Join byte lists with a separator byte (inverse of `splitByte`). -/
def joinByte (b : Nat) : List (List Nat) → List Nat
  | [] => []
  | [f] => f
  | f :: rest => f ++ b :: joinByte b rest

/-- Model of `parse_nmea::parse_sentence`: trim, reject if shorter than 6,
validate the checksum, then strip the 3-byte checksum suffix and split the
rest on commas.  Outer `none` models a panic inside the checksum validator
(unreachable from here); `some none` is the rejection. -/
def parse_sentence (s : List Nat) : Option (Option (List (List Nat))) :=
  let t := trimAscii s
  if t.length < 6 then some none
  else
    match is_valid_checksum t with
    | none => none
    | some true => some (some (splitByte 44 (t.take (t.length - 3))))
    | some false => some none

/-- Round to the nearest integer, ties to even, as `format!` does when it
shortens a decimal expansion. -/
def roundHalfEven (q : ℚ) : ℤ :=
  let f := ⌊q⌋
  let r := q - f
  if r < 1 / 2 then f else if 1 / 2 < r then f + 1 else if Even f then f else f + 1

/-- Model of `format!("\x7b:.6\x7d", r).parse().unwrap()`: round to 6 decimal
places. -/
def round6 (q : ℚ) : ℚ := (roundHalfEven (q * 1000000) : ℚ) / 1000000

namespace parse_nmea

/-- Numeral part of `_parse_degrees`: split on the first `.`; a 4-digit
integer part means 2 degree digits, anything else means 3 (with the panics of
the out-of-range slices and of the `parse().unwrap()` calls as `none`),
then `deg + minutes/60` rounded to 6 decimal places. -/
def degreesCore (degrees : List Nat) : Option ℚ :=
  let firstHalf := (splitByte 46 degrees).headD []
  if firstHalf.length = 4 then
    match parseFloat (degrees.take 2), parseFloat (degrees.drop 2) with
    | some d, some m => some (round6 (d + m / 60))
    | _, _ => none
  else
    if degrees.length < 3 then none
    else
      match parseFloat (degrees.take 3), parseFloat (degrees.drop 3) with
      | some d, some m => some (round6 (d + m / 60))
      | _, _ => none

/-- Model of `parse_nmea::_parse_degrees`.  `some none` is the empty-numeral
early return; the outer `none` models a panic (numeral parse failure, slice
out of range, or a compass direction outside N/E/S/W). -/
def _parse_degrees (degrees compass_direction : List Nat) : Option (Option ℚ) :=
  if degrees = [] then some none
  else
    (degreesCore degrees).bind fun r =>
      if compass_direction = ascii "N" ∨ compass_direction = ascii "E" then
        some (some r)
      else if compass_direction = ascii "S" ∨ compass_direction = ascii "W" then
        some (some (r * (-1)))
      else none

end parse_nmea

namespace gga

/-- Satellite fix type of the GGA record. -/
inductive SatFix
  | NoFix
  | GpsFix
  | DgpsFix
deriving DecidableEq

/-- GGA record (`gga::GgaData`). -/
structure GgaData where
  utc : ℚ
  lat : Option ℚ
  long : Option ℚ
  sat_fix : SatFix
  satellites_used : Int
  hdop : Option ℚ
  msl_alt : Option ℚ
  geoidal_sep : Option ℚ
  age_diff_corr : Option ℚ
deriving DecidableEq

/-- Model of `gga::parse_gga`: header check (`[3..5] == "GG"`), mandatory
UTC via `parse().unwrap()`, coordinates via `_parse_degrees`, enumerated
fix with default, mandatory satellite count, then lenient optional numerals. -/
def parse_gga (args : List (List Nat)) : Option GgaData :=
  match args.get? 0 with
  | none => none
  | some header =>
  match sliceR header 3 5 with
  | none => none
  | some h2 =>
  if h2 = ascii "GG" then
    match args.get? 1 with
    | none => none
    | some t1 =>
    match parseFloat t1 with
    | none => none
    | some utc =>
    match args.get? 2, args.get? 3 with
    | some a2, some a3 =>
      (match parse_nmea._parse_degrees a2 a3 with
      | none => none
      | some lat =>
      match args.get? 4, args.get? 5 with
      | some a4, some a5 =>
        (match parse_nmea._parse_degrees a4 a5 with
        | none => none
        | some long =>
        match args.get? 6 with
        | none => none
        | some f =>
        let sat_fix :=
          if f = ascii "0" then SatFix.NoFix
          else if f = ascii "1" then SatFix.GpsFix
          else if f = ascii "2" then SatFix.DgpsFix
          else SatFix.NoFix
        match args.get? 7 with
        | none => none
        | some a7 =>
        match parseI32 a7 with
        | none => none
        | some satellites_used =>
        match args.get? 8, args.get? 9, args.get? 11, args.get? 13 with
        | some a8, some a9, some a11, some a13 =>
          some { utc, lat, long, sat_fix, satellites_used,
                 hdop := parseFloat a8, msl_alt := parseFloat a9,
                 geoidal_sep := parseFloat a11, age_diff_corr := parseFloat a13 }
        | _, _, _, _ => none)
      | _, _ => none)
    | _, _ => none
  else none

end gga

namespace gsa

/-- Manual/automatic selection mode of the GSA record. -/
inductive Mode
  | Manual
  | Automatic
deriving DecidableEq

/-- Dimension fix of the GSA record. -/
inductive DimensionFix
  | NotAvailable
  | Dimension2d
  | Dimension3d
deriving DecidableEq

/-- GSA record (`gsa::GsaData`). -/
structure GsaData where
  mode : Mode
  dimension_fix : DimensionFix
  sat1 : Option Int
  sat2 : Option Int
  sat3 : Option Int
  sat4 : Option Int
  sat5 : Option Int
  sat6 : Option Int
  sat7 : Option Int
  sat8 : Option Int
  sat9 : Option Int
  sat10 : Option Int
  sat11 : Option Int
  sat12 : Option Int
  pdop : Option ℚ
  hdop : Option ℚ
  vdop : Option ℚ
deriving DecidableEq

/-- Model of `gsa::parse_gsa`: header check (`[3..6] == "GSA"`), enumerated
mode and dimension fix with defaults, twelve lenient satellite ids, three
lenient DOP values. -/
def parse_gsa (args : List (List Nat)) : Option GsaData :=
  match args.get? 0 with
  | none => none
  | some header =>
  match sliceR header 3 6 with
  | none => none
  | some h3 =>
  if h3 = ascii "GSA" then
    match args.get? 1 with
    | none => none
    | some m =>
    let mode :=
      if m = ascii "M" then Mode.Manual
      else if m = ascii "A" then Mode.Automatic
      else Mode.Manual
    match args.get? 2 with
    | none => none
    | some d =>
    let dimension_fix :=
      if d = ascii "1" then DimensionFix.NotAvailable
      else if d = ascii "2" then DimensionFix.Dimension2d
      else if d = ascii "3" then DimensionFix.Dimension3d
      else DimensionFix.NotAvailable
    match args.get? 3, args.get? 4, args.get? 5, args.get? 6 with
    | some a3, some a4, some a5, some a6 =>
      (match args.get? 7, args.get? 8, args.get? 9, args.get? 10 with
      | some a7, some a8, some a9, some a10 =>
        (match args.get? 11, args.get? 12, args.get? 13, args.get? 14 with
        | some a11, some a12, some a13, some a14 =>
          (match args.get? 15, args.get? 16, args.get? 17 with
          | some a15, some a16, some a17 =>
            some { mode, dimension_fix,
                   sat1 := parseI32 a3, sat2 := parseI32 a4, sat3 := parseI32 a5,
                   sat4 := parseI32 a6, sat5 := parseI32 a7, sat6 := parseI32 a8,
                   sat7 := parseI32 a9, sat8 := parseI32 a10, sat9 := parseI32 a11,
                   sat10 := parseI32 a12, sat11 := parseI32 a13, sat12 := parseI32 a14,
                   pdop := parseFloat a15, hdop := parseFloat a16, vdop := parseFloat a17 }
          | _, _, _ => none)
        | _, _, _, _ => none)
      | _, _, _, _ => none)
    | _, _, _, _ => none
  else none

end gsa

namespace gsv

/-- Single satellite entry of a GSV record (`gsv::Satellites`). -/
structure Satellites where
  id : Option Int
  elevation : Option ℚ
  azimuth : Option ℚ
  snr : Option ℚ
deriving DecidableEq

/-- Model of `gsv::parse_sat`: four lenient fields of a 4-token slice
(a missing token is an unwrap panic). -/
def parse_sat (args : List (List Nat)) : Option Satellites :=
  match args.get? 0, args.get? 1, args.get? 2, args.get? 3 with
  | some a0, some a1, some a2, some a3 =>
    some { id := parseI32 a0, elevation := parseFloat a1,
           azimuth := parseFloat a2, snr := parseFloat a3 }
  | _, _, _, _ => none

/-- Body of the `for sat in &[sat1, sat2, sat3, sat4]` loop of `parse_gsv`:
an absent slice is skipped, a present one is decoded and pushed (a decode
panic aborts). -/
def pushSat (acc : Option (List Satellites)) (s : Option (List (List Nat))) :
    Option (List Satellites) :=
  match acc with
  | none => none
  | some vs =>
    match s with
    | none => some vs
    | some sl =>
      match parse_sat sl with
      | none => none
      | some v => some (vs ++ [v])

/-- Model of `gsv::parse_gsv`: header check (`[3..6] == "GSV"`), then the
four optional satellite slices `args.get(4..8)` … `args.get(16..20)`, each
present slice decoded and pushed in order. -/
def parse_gsv (args : List (List Nat)) : Option (List Satellites) :=
  match args.get? 0 with
  | none => none
  | some header =>
  match sliceR header 3 6 with
  | none => none
  | some h3 =>
  if h3 = ascii "GSV" then
    pushSat (pushSat (pushSat (pushSat (some []) (sliceR args 4 8))
      (sliceR args 8 12)) (sliceR args 12 16)) (sliceR args 16 20)
  else none

end gsv

namespace rmc

/-- RMC record (`rmc::RmcData`). -/
structure RmcData where
  utc : ℚ
  fix_status : Bool
  latitude : Option ℚ
  longitude : Option ℚ
  speed : Option ℚ
  course : Option ℚ
  date : List Nat
  mag_var : Option ℚ
deriving DecidableEq

/-- Magnetic-variation handling of `parse_rmc`, fields 11/12: `E` is lenient,
`W` multiplies with a `parse().unwrap()` panic on failure, anything else
(including an absent field 12) gives `None`. -/
def magVarRmc (args : List (List Nat)) : Option (Option ℚ) :=
  let m12 := args.getD 12 []
  if m12 = ascii "E" then
    match args.get? 11 with
    | none => none
    | some a11 => some (parseFloat a11)
  else if m12 = ascii "W" then
    match args.get? 11 with
    | none => none
    | some a11 =>
      match parseFloat a11 with
      | none => none
      | some v => some (some (v * (-1)))
  else some none

/-- Model of `rmc::parse_rmc` (no header check in the source): UTC defaulted
to 0 on parse failure, fix status from field 2 (default `"V"`), coordinates
via `_parse_degrees`, lenient speed/course, date as a raw token, magnetic
variation via `magVarRmc`. -/
def parse_rmc (args : List (List Nat)) : Option RmcData :=
  match args.get? 1 with
  | none => none
  | some t1 =>
  let utc := (parseFloat t1).getD 0
  let fs := args.getD 2 (ascii "V")
  let fix_status := if fs = ascii "A" then true else if fs = ascii "V" then false else false
  match args.get? 3, args.get? 4 with
  | some a3, some a4 =>
    (match parse_nmea._parse_degrees a3 a4 with
    | none => none
    | some latitude =>
    match args.get? 5, args.get? 6 with
    | some a5, some a6 =>
      (match parse_nmea._parse_degrees a5 a6 with
      | none => none
      | some longitude =>
      match args.get? 7, args.get? 8 with
      | some a7, some a8 =>
        (match magVarRmc args with
        | none => none
        | some mag_var =>
          some { utc, fix_status, latitude, longitude,
                 speed := parseFloat a7, course := parseFloat a8,
                 date := args.getD 9 [], mag_var })
      | _, _ => none)
    | _, _ => none)
  | _, _ => none

end rmc

namespace vtg

/-- Positioning mode of the VTG record. -/
inductive Mode
  | Autonomous
  | Differential
  | Estimated
  | Unknown
deriving DecidableEq

/-- VTG record (`vtg::VtgData`). -/
structure VtgData where
  true_course : Option ℚ
  magnetic_course : Option ℚ
  speed_knots : Option ℚ
  speed_kph : Option ℚ
  mode : Mode
deriving DecidableEq

/-- Model of `vtg::parse_vtg` (no header check in the source): four lenient
numerals at fixed positions (missing position is an unwrap panic) and an
enumerated mode with default `"N"`. -/
def parse_vtg (args : List (List Nat)) : Option VtgData :=
  match args.get? 1, args.get? 3, args.get? 5, args.get? 7 with
  | some a1, some a3, some a5, some a7 =>
    let m := args.getD 9 (ascii "N")
    let mode :=
      if m = ascii "A" then Mode.Autonomous
      else if m = ascii "D" then Mode.Differential
      else if m = ascii "E" then Mode.Estimated
      else Mode.Unknown
    some { true_course := parseFloat a1, magnetic_course := parseFloat a3,
           speed_knots := parseFloat a5, speed_kph := parseFloat a7, mode }
  | _, _, _, _ => none

end vtg

namespace gll

/-- GLL record (`gll::GllData`). -/
structure GllData where
  latitude : Option ℚ
  longitude : Option ℚ
  utc : Option ℚ
  is_valid : Bool
deriving DecidableEq

/-- Model of `gll::parse_gll` (no header check in the source): coordinates
via `_parse_degrees`, lenient UTC with default token `"0"`, validity flag
from field 6. -/
def parse_gll (args : List (List Nat)) : Option GllData :=
  match args.get? 1, args.get? 2 with
  | some a1, some a2 =>
    (match parse_nmea._parse_degrees a1 a2 with
    | none => none
    | some latitude =>
    match args.get? 3, args.get? 4 with
    | some a3, some a4 =>
      (match parse_nmea._parse_degrees a3 a4 with
      | none => none
      | some longitude =>
      let utc := parseFloat (args.getD 5 (ascii "0"))
      let v := args.getD 6 []
      let is_valid := if v = ascii "A" then true else if v = ascii "V" then false else false
      some { latitude, longitude, utc, is_valid })
    | _, _ => none)
  | _, _ => none

end gll

namespace gps

/-- UTF-8 continuation byte `0x80..0xBF`. -/
def contB (c : Nat) : Bool := 128 ≤ c && c ≤ 191

/-- UTF-8 validity of a byte list, as `str::from_utf8` checks it. -/
def validUtf8 : List Nat → Bool
  | [] => true
  | c :: rest =>
    if c < 128 then validUtf8 rest
    else if 194 ≤ c ∧ c ≤ 223 then
      match rest with
      | c1 :: rest2 => contB c1 && validUtf8 rest2
      | [] => false
    else if c = 224 then
      match rest with
      | c1 :: c2 :: rest2 => (160 ≤ c1 && c1 ≤ 191) && contB c2 && validUtf8 rest2
      | _ => false
    else if (225 ≤ c ∧ c ≤ 236) ∨ c = 238 ∨ c = 239 then
      match rest with
      | c1 :: c2 :: rest2 => contB c1 && contB c2 && validUtf8 rest2
      | _ => false
    else if c = 237 then
      match rest with
      | c1 :: c2 :: rest2 => (128 ≤ c1 && c1 ≤ 159) && contB c2 && validUtf8 rest2
      | _ => false
    else if c = 240 then
      match rest with
      | c1 :: c2 :: c3 :: rest2 =>
        (144 ≤ c1 && c1 ≤ 191) && contB c2 && contB c3 && validUtf8 rest2
      | _ => false
    else if 241 ≤ c ∧ c ≤ 243 then
      match rest with
      | c1 :: c2 :: c3 :: rest2 => contB c1 && contB c2 && contB c3 && validUtf8 rest2
      | _ => false
    else if c = 244 then
      match rest with
      | c1 :: c2 :: c3 :: rest2 =>
        (128 ≤ c1 && c1 ≤ 143) && contB c2 && contB c3 && validUtf8 rest2
      | _ => false
    else false

/-- Result of one `read_line` call (`gps::PortConnection`). -/
inductive PortConnection
  | Valid (s : List Nat)
  | InvalidBytes (b : List Nat)
  | NoConnection
deriving DecidableEq

/-- Result of one `update` call (`gps::GpsSentence`). -/
inductive GpsSentence
  | GGA (d : gga.GgaData)
  | VTG (d : vtg.VtgData)
  | GSA (d : gsa.GsaData)
  | GSV (d : List gsv.Satellites)
  | GLL (d : gll.GllData)
  | RMC (d : rmc.RmcData)
  | NoConnection
  | InvalidBytes
  | InvalidSentence
deriving DecidableEq

/-- One iteration of the `read_line` loop as seen from the transport: the
elapsed milliseconds the loop observes at the top of the iteration, and the
outcome of the one-byte `p.read` call (`okRead` with at most one byte, or an
error such as a serial timeout, which the loop ignores). -/
inductive ReadEvent
  | okRead (byte : Option Nat)
  | errRead
deriving DecidableEq

/-- Interpret the trimmed byte buffer when the loop stops:
`str::from_utf8` success gives `Valid`, failure `InvalidBytes`. -/
def decodeOutput (output : List Nat) : PortConnection :=
  if validUtf8 output then PortConnection.Valid output else PortConnection.InvalidBytes output

/-- Loop of `Gps::read_line` over a finite trace of timed read events.
At the top of each iteration the elapsed time is compared against the 1000 ms
timeout; then one `p.read` outcome is consumed.  An `Ok` read appends its
byte (if any) and tests `output.get(output.len() - 1).unwrap() == &10u8 ||
output.len() > 255`; on an empty buffer the index arithmetic underflows and
the `unwrap` panics, modelled as the outer `none`.  `some none` means the
modelled trace ended before the loop decided. -/
def readLineLoop : List Nat → List (Nat × ReadEvent) → Option (Option PortConnection)
  | _, [] => some none
  | output, (t, ev) :: rest =>
    if 1000 < t then some (some PortConnection.NoConnection)
    else
      match ev with
      | ReadEvent.errRead => readLineLoop output rest
      | ReadEvent.okRead b =>
        let output2 := output ++ b.toList
        match output2.getLast? with
        | none => none
        | some last =>
          if last = 10 ∨ 255 < output2.length then some (some (decodeOutput output2))
          else readLineLoop output2 rest

/-- Model of `Gps::read_line`: run the loop on an empty accumulation buffer. -/
def read_line (events : List (Nat × ReadEvent)) : Option (Option PortConnection) :=
  readLineLoop [] events

/-- Continuation loop of the GSV branch of `Gps::update`: one iteration per
remaining declared message.  A `Valid` line is validated/split (an invalid
line is `sentence.unwrap()`, a panic) and decoded by `parse_gsv` (a panic on
a non-GSV header); its entries are appended.  Any other read result is
silently skipped by the `if let`. -/
def gsvLoop : Nat → List PortConnection → List gsv.Satellites →
    Option (List gsv.Satellites)
  | 0, _, acc => some acc
  | k + 1, reads, acc =>
    let line := reads.headD PortConnection.NoConnection
    let rest := reads.tail
    match line with
    | PortConnection.Valid s =>
      match parse_sentence s with
      | none => none
      | some none => none
      | some (some fields) =>
        match gsv.parse_gsv fields with
        | none => none
        | some sats => gsvLoop k rest (acc ++ sats)
    | _ => gsvLoop k rest acc

/-- Model of `Gps::update`, abstracting the serial port as the result of the
first `read_line` call plus the results of any further `read_line` calls the
GSV branch performs (an exhausted list behaves as a silent port).  The
header token is sliced at `[3..5]` for the `GG` test and at `[3..6]` for the
other sentence types; an out-of-range slice, or one whose endpoint falls
inside a multi-byte character, is a panic (`none`). -/
def update (first : PortConnection) (rest : List PortConnection) : Option GpsSentence :=
  match first with
  | PortConnection.NoConnection => some GpsSentence.NoConnection
  | PortConnection.InvalidBytes _ => some GpsSentence.InvalidBytes
  | PortConnection.Valid s =>
    match parse_sentence s with
    | none => none
    | some none => some GpsSentence.InvalidSentence
    | some (some fields) =>
      match fields.get? 0 with
      | none => none
      | some header =>
        match sliceStr header 3 5 with
        | none => none
        | some h2 =>
          if h2 = ascii "GG" then (gga.parse_gga fields).map GpsSentence.GGA
          else
            match sliceStr header 3 6 with
            | none => none
            | some h3 =>
              if h3 = ascii "VTG" then (vtg.parse_vtg fields).map GpsSentence.VTG
              else if h3 = ascii "GSA" then (gsa.parse_gsa fields).map GpsSentence.GSA
              else if h3 = ascii "GLL" then (gll.parse_gll fields).map GpsSentence.GLL
              else if h3 = ascii "RMC" then (rmc.parse_rmc fields).map GpsSentence.RMC
              else if h3 = ascii "GSV" then
                match fields.get? 1 with
                | none => none
                | some f1 =>
                  match parseI32 f1 with
                  | none => none
                  | some n =>
                    match gsv.parse_gsv fields with
                    | none => none
                    | some sats =>
                      (gsvLoop (n - 1).toNat rest sats).map GpsSentence.GSV
              else some GpsSentence.InvalidSentence

end gps

/-- Uppercase hexadecimal digit byte of a value below 16. -/
def hexChar (n : Nat) : Nat := if n < 10 then 48 + n else 55 + n

/-- Lowercase hexadecimal digit byte of a value below 16. -/
def hexCharLower (n : Nat) : Nat := if n < 10 then 48 + n else 87 + n

/-- Canonical two-digit uppercase hexadecimal rendering of a byte. -/
def hexUpper2 (x : Nat) : List Nat := [hexChar (x / 16), hexChar (x % 16)]

/-- Canonical two-digit lowercase hexadecimal rendering of a byte. -/
def hexLower2 (x : Nat) : List Nat := [hexCharLower (x / 16), hexCharLower (x % 16)]

/-- Uppercase an ASCII letter byte (used to compare checksum digits modulo case). -/
def upcaseB (c : Nat) : Nat := if 97 ≤ c ∧ c ≤ 122 then c - 32 else c

/-- Uppercase the final two bytes of a sentence (the checksum digits). -/
def upcaseLast2 (s : List Nat) : List Nat :=
  s.take (s.length - 2) ++ (s.drop (s.length - 2)).map upcaseB

/-- Re-join a field sequence with commas and append `*` plus the recomputed
checksum (XOR of the joined body after its first byte), in canonical
uppercase hex — the round-trip reconstruction of claim C8. -/
def rejoin (fields : List (List Nat)) : List Nat :=
  joinByte 44 fields ++ 42 :: hexUpper2 (xorBytes ((joinByte 44 fields).drop 1))

/-! ### Helper lemmas -/

theorem foldl_xor_eq (s : Nat) (l : List Nat) :
    l.foldl (fun a c => a ^^^ c) s = s ^^^ xorBytes l := by
  induction l generalizing s with
  | nil => simp [xorBytes]
  | cons a l ih =>
    show (l.foldl (fun a c => a ^^^ c) (s ^^^ a)) = s ^^^ xorBytes (a :: l)
    rw [ih (s ^^^ a)]
    have h2 : xorBytes (a :: l) = a ^^^ xorBytes l := by
      show (l.foldl (fun a c => a ^^^ c) (0 ^^^ a)) = a ^^^ xorBytes l
      rw [ih (0 ^^^ a), Nat.zero_xor]
    rw [h2, Nat.xor_assoc]

theorem xorBytes_cons (a : Nat) (l : List Nat) :
    xorBytes (a :: l) = a ^^^ xorBytes l := by
  show (l.foldl (fun a c => a ^^^ c) (0 ^^^ a)) = a ^^^ xorBytes l
  rw [foldl_xor_eq, Nat.zero_xor]

theorem xorBytes_set (l : List Nat) (i : Nat) (c : Nat) (h : i < l.length) :
    xorBytes (l.set i c) = xorBytes l ^^^ (l.getD i 0 ^^^ c) := by
  induction l generalizing i with
  | nil => simp at h
  | cons a l ih =>
    cases i with
    | zero =>
      simp only [List.set, List.getD, List.get?, Option.getD]
      rw [xorBytes_cons, xorBytes_cons]
      rw [Nat.xor_comm a (xorBytes l), Nat.xor_assoc, ← Nat.xor_assoc a a c,
        Nat.xor_self, Nat.zero_xor, Nat.xor_comm (xorBytes l) c]
    | succ j =>
      simp only [List.set]
      rw [xorBytes_cons, xorBytes_cons, ih j (by simpa using h)]
      have : (a :: l).getD (j + 1) 0 = l.getD j 0 := rfl
      rw [this, Nat.xor_assoc]

theorem xor_ne_of_ne {a b : Nat} (h : a ≠ b) : a ^^^ b ≠ 0 := by
  intro h0
  exact h (Nat.xor_eq_zero.mp h0)

theorem xorBytes_lt (l : List Nat) (h : ∀ c ∈ l, c < 256) : xorBytes l < 256 := by
  induction l with
  | nil => simp [xorBytes]
  | cons a l ih =>
    rw [xorBytes_cons]
    have h1 : a < 2 ^ 8 := h a (by simp)
    have h2 : xorBytes l < 2 ^ 8 := ih fun c hc => h c (List.mem_cons_of_mem _ hc)
    exact Nat.xor_lt_two_pow h1 h2

theorem dropWhile_eq_self_of_head (p : Nat → Bool) (l : List Nat)
    (h : ∀ x, l.head? = some x → p x = false) : l.dropWhile p = l := by
  cases l with
  | nil => rfl
  | cons a t =>
    rw [List.dropWhile_cons, h a rfl]
    simp

theorem trimAscii_eq_self (l : List Nat)
    (ha : ∀ x, l.head? = some x → isWsByte x = false)
    (hb : ∀ x, l.getLast? = some x → isWsByte x = false) :
    trimAscii l = l := by
  unfold trimAscii
  rw [dropWhile_eq_self_of_head _ _ ha]
  rw [dropWhile_eq_self_of_head _ _ (by simpa [List.head?_reverse] using hb)]
  simp

theorem trimAscii_sentence (b : List Nat) (d1 d2 : Nat) (h2 : isWsByte d2 = false) :
    trimAscii ((36 :: b) ++ [42, d1, d2]) = (36 :: b) ++ [42, d1, d2] := by
  apply trimAscii_eq_self
  · intro x hx
    simp only [List.cons_append, List.head?_cons, Option.some.injEq] at hx
    subst hx
    rfl
  · intro x hx
    rw [show (36 :: b) ++ [42, d1, d2] = ((36 :: b) ++ [42, d1]) ++ [d2] by simp] at hx
    rw [List.getLast?_concat] at hx
    cases hx
    exact h2

theorem hexDigit_not_ws {c : Nat} (h : isHexDigitB c = true) : isWsByte c = false := by
  simp only [isHexDigitB, isDigitB, Bool.or_eq_true, Bool.and_eq_true,
    decide_eq_true_eq] at h
  simp only [isWsByte, Bool.or_eq_false_iff, decide_eq_false_iff_not]
  omega

theorem hexDigit_lt {c : Nat} (h : isHexDigitB c = true) : c < 103 := by
  simp only [isHexDigitB, isDigitB, Bool.or_eq_true, Bool.and_eq_true,
    decide_eq_true_eq] at h
  omega

theorem hexUpper2_parses : ∀ x < 256, fromStrRadix16 (hexUpper2 x) = some x := by decide

theorem hexLower2_parses : ∀ x < 256, fromStrRadix16 (hexLower2 x) = some x := by decide

theorem hexUpper2_last_not_ws : ∀ x < 256, isWsByte (hexChar (x % 16)) = false := by decide

theorem hexLower2_last_not_ws : ∀ x < 256, isWsByte (hexCharLower (x % 16)) = false := by
  decide

theorem hexPair_value : ∀ d1 < 103, ∀ d2 < 103, isHexDigitB d1 = true →
    isHexDigitB d2 = true →
    fromStrRadix16 [d1, d2] = some (16 * hexVal d1 + hexVal d2) := by decide

theorem hexPair_upcase : ∀ d1 < 103, ∀ d2 < 103, isHexDigitB d1 = true →
    isHexDigitB d2 = true →
    hexUpper2 (16 * hexVal d1 + hexVal d2) = [upcaseB d1, upcaseB d2] := by decide

theorem is_valid_checksum_split (b : List Nat) (d1 d2 : Nat) (h2 : isWsByte d2 = false) :
    is_valid_checksum ((36 :: b) ++ [42, d1, d2]) =
      match fromStrRadix16 [d1, d2] with
      | some expected => some (decide (xorBytes b = expected))
      | none => some false := by
  have h3 : ((36 :: b) ++ [42, d1, d2]).drop (b.length + 1) = [42, d1, d2] :=
    List.drop_left' (by simp)
  have h4 : ((36 :: b) ++ [42, d1, d2]).take (b.length + 1) = 36 :: b :=
    List.take_left' (by simp)
  have h5 : ((36 :: b) ++ [42, d1, d2]).drop (b.length + 2) = [d1, d2] := by
    rw [show (36 :: b) ++ [42, d1, d2] = ((36 :: b) ++ [42]) ++ [d1, d2] by simp]
    exact List.drop_left' (by simp)
  have hlen : ((36 :: b) ++ [42, d1, d2]).length = b.length + 4 := by simp
  simp only [is_valid_checksum]
  rw [trimAscii_sentence b d1 d2 h2]
  simp only [hlen, show b.length + 4 - 3 = b.length + 1 from by omega,
    show b.length + 4 - 2 = b.length + 2 from by omega, h3, h4, h5]
  simp

theorem splitByte_ne_nil (b : Nat) : ∀ l, splitByte b l ≠ []
  | [] => by simp [splitByte]
  | c :: cs => by
    simp only [splitByte]
    split
    · exact List.cons_ne_nil _ _
    · split
      · exact List.cons_ne_nil _ _
      · exact List.cons_ne_nil _ _

theorem joinByte_splitByte (b : Nat) : ∀ l, joinByte b (splitByte b l) = l
  | [] => rfl
  | c :: cs => by
    have ih := joinByte_splitByte b cs
    simp only [splitByte]
    split
    · rename_i hcb
      rw [hcb]
      cases hsp : splitByte b cs with
      | nil => exact absurd hsp (splitByte_ne_nil b cs)
      | cons f rest =>
        rw [hsp] at ih
        show ([] : List Nat) ++ b :: joinByte b (f :: rest) = b :: cs
        rw [List.nil_append, ih]
    · cases hsp : splitByte b cs with
      | nil => exact absurd hsp (splitByte_ne_nil b cs)
      | cons f rest =>
        rw [hsp] at ih
        cases rest with
        | nil =>
          show c :: f = c :: cs
          have hf : joinByte b [f] = f := rfl
          rw [hf] at ih
          rw [ih]
        | cons g rs =>
          show (c :: f) ++ b :: joinByte b (g :: rs) = c :: cs
          have ih2 : f ++ b :: joinByte b (g :: rs) = cs := ih
          rw [List.cons_append, ih2]

/-! ### Claims -/

/-- C4: for every byte-string body `b` with XOR `x`, the checksum validator
accepts `"$" ++ b ++ "*" ++ hex x` with the two hex digits in upper or in
lower case; and for every single-byte change to `b` that leaves the trailing
checksum digits (parsing to `x`) unchanged, validation returns `false`. -/
theorem claim_C4 :
    (∀ b : List Nat, (∀ c ∈ b, c < 256) →
      is_valid_checksum ((36 :: b) ++ (42 :: hexUpper2 (xorBytes b))) = some true ∧
      is_valid_checksum ((36 :: b) ++ (42 :: hexLower2 (xorBytes b))) = some true) ∧
    (∀ b : List Nat, ∀ i c2 d1 d2, (∀ c ∈ b, c < 256) → i < b.length → c2 < 256 →
      c2 ≠ b.getD i 0 → isHexDigitB d1 = true → isHexDigitB d2 = true →
      fromStrRadix16 [d1, d2] = some (xorBytes b) →
      is_valid_checksum ((36 :: b.set i c2) ++ [42, d1, d2]) = some false) := by
  constructor
  · intro b hb
    have hx : xorBytes b < 256 := xorBytes_lt b hb
    constructor
    · rw [show (42 :: hexUpper2 (xorBytes b)) =
        [42, hexChar (xorBytes b / 16), hexChar (xorBytes b % 16)] from rfl]
      rw [is_valid_checksum_split b _ _ (hexUpper2_last_not_ws _ hx)]
      rw [show [hexChar (xorBytes b / 16), hexChar (xorBytes b % 16)] =
        hexUpper2 (xorBytes b) from rfl]
      rw [hexUpper2_parses _ hx]
      simp
    · rw [show (42 :: hexLower2 (xorBytes b)) =
        [42, hexCharLower (xorBytes b / 16), hexCharLower (xorBytes b % 16)] from rfl]
      rw [is_valid_checksum_split b _ _ (hexLower2_last_not_ws _ hx)]
      rw [show [hexCharLower (xorBytes b / 16), hexCharLower (xorBytes b % 16)] =
        hexLower2 (xorBytes b) from rfl]
      rw [hexLower2_parses _ hx]
      simp
  · intro b i c2 d1 d2 hb hi hc2lt hne hd1 hd2 hfs
    rw [is_valid_checksum_split (b.set i c2) d1 d2 (hexDigit_not_ws hd2), hfs]
    have hxs : xorBytes (b.set i c2) = xorBytes b ^^^ (b.getD i 0 ^^^ c2) :=
      xorBytes_set b i c2 hi
    have hne0 : (b.getD i 0 ^^^ c2) ≠ 0 := xor_ne_of_ne (Ne.symm hne)
    have hneq : xorBytes (b.set i c2) ≠ xorBytes b := by
      rw [hxs]
      intro h
      apply hne0
      have h2 : xorBytes b ^^^ (xorBytes b ^^^ (b.getD i 0 ^^^ c2)) =
          xorBytes b ^^^ xorBytes b := congrArg (xorBytes b ^^^ ·) h
      rwa [← Nat.xor_assoc, Nat.xor_self, Nat.zero_xor] at h2
    simp [hneq]

/-- Witness for C4 at the body `PMTK220,100` (XOR `0x2F`): the canonical
upper- and lower-case renderings validate, and changing the first body byte
`P` to `Q` while keeping the checksum digits `2F` fails validation. -/
theorem claim_C4_witness :
    is_valid_checksum ((36 :: ascii "PMTK220,100") ++
      (42 :: hexUpper2 (xorBytes (ascii "PMTK220,100")))) = some true ∧
    is_valid_checksum ((36 :: ascii "PMTK220,100") ++
      (42 :: hexLower2 (xorBytes (ascii "PMTK220,100")))) = some true ∧
    is_valid_checksum ((36 :: (ascii "PMTK220,100").set 0 81) ++
      [42, 50, 70]) = some false :=
  ⟨(claim_C4.1 (ascii "PMTK220,100") (by decide)).1,
   (claim_C4.1 (ascii "PMTK220,100") (by decide)).2,
   claim_C4.2 (ascii "PMTK220,100") 0 81 50 70 (by decide) (by decide) (by decide)
     (by decide) (by decide) (by decide) (by decide)⟩

/-- C8 counterexample: the validator accepts the trimmed line `$O@*+F` —
`u8::from_str_radix` parses the signed checksum text `+F` as 15, the XOR of
the body `O@` — yet re-joining its single field with the recomputed checksum
yields `$O@*0F`, which differs from the uppercased original line by more
than the letter case of the checksum digits. -/
theorem claim_C8_counterexample :
    trimAscii (ascii "$O@*+F") = ascii "$O@*+F" ∧
    parse_sentence (ascii "$O@*+F") = some (some [ascii "$O@"]) ∧
    rejoin [ascii "$O@"] ≠ upcaseLast2 (ascii "$O@*+F") := by
  exact ⟨by decide, by decide, by decide⟩

/-- C8 (amended): for every trimmed line accepted by the validator/splitter
whose two trailing checksum characters are hex digits, re-joining the
produced field sequence with commas and appending `*` plus the recomputed
checksum reproduces the line byte for byte, modulo the letter case of the
original checksum digits (both sides compared with those two digits
uppercased).  The hex-digit restriction excludes exactly the accepted lines
whose checksum field uses the number parser's sign syntax, on which the
counterexample shows the round trip failing beyond letter case. -/
theorem claim_C8 (s : List Nat) (fields : List (List Nat))
    (htrim : trimAscii s = s)
    (hparse : parse_sentence s = some (some fields))
    (hhex : ∀ c ∈ s.drop (s.length - 2), isHexDigitB c = true) :
    rejoin fields = upcaseLast2 s := by
  simp only [parse_sentence, htrim] at hparse
  split at hparse
  · exact absurd hparse (by simp)
  rename_i hlen6
  have h6 : 6 ≤ s.length := by omega
  split at hparse
  · exact absurd hparse (by simp)
  · -- the accepted branch: fields is the comma split of the stripped body
    rename_i hvc
    simp only [Option.some.injEq] at hparse
    have hfields : fields = splitByte 44 (s.take (s.length - 3)) := hparse.symm
    simp only [is_valid_checksum, htrim] at hvc
    split at hvc
    · exact absurd hvc (by simp)
    split at hvc
    · exact absurd hvc (by simp)
    rename_i hstar
    split at hvc
    · rename_i expected hexp
      split at hvc
      · exact absurd hvc (by simp)
      rename_i hbody
      simp only [Option.some.injEq, decide_eq_true_eq] at hvc
      -- hvc : XOR of the body after its first byte = expected
      have hdl : (s.drop (s.length - 3)).length = 3 := by
        rw [List.length_drop]
        omega
      obtain ⟨u0, u1, u2, hu⟩ := List.length_eq_three.mp hdl
      have hstar2 : u0 = 42 := by
        rw [not_not] at hstar
        rw [hu] at hstar
        simpa using hstar
      have hdd : s.drop (s.length - 2) = [u1, u2] := by
        rw [show s.length - 2 = (s.length - 3) + 1 by omega]
        rw [← List.drop_drop, hu]
        rfl
      have hu1 : isHexDigitB u1 = true := hhex u1 (by rw [hdd]; simp)
      have hu2 : isHexDigitB u2 = true := hhex u2 (by rw [hdd]; simp)
      have hval := hexPair_value u1 (hexDigit_lt hu1) u2 (hexDigit_lt hu2) hu1 hu2
      have hupc := hexPair_upcase u1 (hexDigit_lt hu1) u2 (hexDigit_lt hu2) hu1 hu2
      rw [hdd, hval] at hexp
      have hexpected : expected = 16 * hexVal u1 + hexVal u2 := by
        injection hexp with h
        exact h.symm
      have hsdecomp : s.take (s.length - 3) ++ [42, u1, u2] = s := by
        conv_rhs => rw [← List.take_append_drop (s.length - 3) s]
        rw [hu, hstar2]
      have hblen : (s.take (s.length - 3)).length = s.length - 3 := by
        rw [List.length_take]
        omega
      have htake2 : s.take (s.length - 2) = s.take (s.length - 3) ++ [42] := by
        have h1 : (s.take (s.length - 3) ++ [42, u1, u2]).take
            ((s.take (s.length - 3)).length + 1)
            = s.take (s.length - 3) ++ [42, u1, u2].take 1 := List.take_append 1
        rw [hsdecomp, hblen] at h1
        rw [show s.length - 2 = s.length - 3 + 1 by omega, h1]
        rfl
      rw [hfields]
      unfold rejoin
      rw [joinByte_splitByte]
      unfold upcaseLast2
      rw [htake2, hdd, hvc, hexpected, hupc]
      conv_rhs => rw [← hsdecomp]
      simp
    · exact absurd hvc (by simp)
  · exact absurd hparse (by simp)

/-- Witness for C8 at the accepted line `$PMTK220,100*2F`: re-joining its
two fields and appending the recomputed checksum reproduces the line. -/
theorem claim_C8_witness :
    rejoin [ascii "$PMTK220", ascii "100"] = upcaseLast2 (ascii "$PMTK220,100*2F") :=
  claim_C8 (ascii "$PMTK220,100*2F") [ascii "$PMTK220", ascii "100"]
    (by decide) (by decide) (by decide)

theorem parse_degrees_dirs (d : List Nat) (r : ℚ)
    (h : parse_nmea._parse_degrees d (ascii "N") = some (some r)) :
    parse_nmea._parse_degrees d (ascii "E") = some (some r) ∧
    parse_nmea._parse_degrees d (ascii "S") = some (some (-r)) ∧
    parse_nmea._parse_degrees d (ascii "W") = some (some (-r))  := by
  have hSne : ¬(ascii "S" = ascii "N" ∨ ascii "S" = ascii "E") := by decide
  have hWne : ¬(ascii "W" = ascii "N" ∨ ascii "W" = ascii "E") := by decide
  unfold parse_nmea._parse_degrees at h ⊢
  split at h
  · exact absurd h (by simp)
  rename_i hd
  rw [if_neg hd, if_neg hd, if_neg hd]
  cases hc : parse_nmea.degreesCore d with
  | none =>
    rw [hc] at h
    exact absurd h (by simp)
  | some q =>
    simp only [hc, Option.some_bind, eq_self_iff_true, true_or, or_true, if_true] at h
    have hqr : q = r := by
      injection h with h1
      injection h1
    subst hqr
    simp only [hc, Option.some_bind, eq_self_iff_true, true_or, or_true, if_true,
      true_and]
    refine ⟨?_, ?_⟩
    · rw [if_neg hSne, show q * (-1) = -q from by ring]
    · rw [if_neg hWne, show q * (-1) = -q from by ring]

/-- C5: coordinate conversion maps `"1020.12345"` (4-digit integer part, so a
2-digit degrees part) to `10.335391` and `"11020.12345"` (5-digit integer
part, so a 3-digit degrees part) to `110.335391`, in decimal degrees rounded
to 6 places, and the hemisphere letters `S` and `W` negate the value obtained
under `N`. -/
theorem claim_C5 :
    parse_nmea._parse_degrees (ascii "1020.12345") (ascii "N")
      = some (some ((10335391 : ℚ) / 1000000)) ∧
    parse_nmea._parse_degrees (ascii "11020.12345") (ascii "N")
      = some (some ((110335391 : ℚ) / 1000000)) ∧
    (∀ d r, parse_nmea._parse_degrees d (ascii "N") = some (some r) →
      parse_nmea._parse_degrees d (ascii "S") = some (some (-r)) ∧
      parse_nmea._parse_degrees d (ascii "W") = some (some (-r))) := by
  refine ⟨by decide, by decide, fun d r h => ⟨(parse_degrees_dirs d r h).2.1,
    (parse_degrees_dirs d r h).2.2⟩⟩

/-- Witness for C5: the negation clause instantiated at `"1020.12345"`. -/
theorem claim_C5_witness :
    parse_nmea._parse_degrees (ascii "1020.12345") (ascii "S")
      = some (some (-((10335391 : ℚ) / 1000000))) :=
  (claim_C5.2.2 (ascii "1020.12345") ((10335391 : ℚ) / 1000000) claim_C5.1).1

/-- C9: for every non-empty coordinate numeral, conversion with a hemisphere
letter outside N/E/S/W is a panic (never a value and never the absent
marker), while `N` and `E` yield the unnegated value and `S` and `W` the
negated value whenever conversion succeeds. -/
theorem claim_C9 :
    (∀ d dir, d ≠ [] → dir ≠ ascii "N" → dir ≠ ascii "E" → dir ≠ ascii "S" →
      dir ≠ ascii "W" → parse_nmea._parse_degrees d dir = none) ∧
    (∀ d r, parse_nmea._parse_degrees d (ascii "N") = some (some r) →
      parse_nmea._parse_degrees d (ascii "E") = some (some r) ∧
      parse_nmea._parse_degrees d (ascii "S") = some (some (-r)) ∧
      parse_nmea._parse_degrees d (ascii "W") = some (some (-r))) := by
  constructor
  · intro d dir hd hn he hs hw
    unfold parse_nmea._parse_degrees
    rw [if_neg hd]
    cases hc : parse_nmea.degreesCore d with
    | none => simp only [hc, Option.none_bind]
    | some q =>
      simp only [hc, Option.some_bind]
      rw [if_neg (by rintro (h | h) <;> [exact hn h; exact he h]),
        if_neg (by rintro (h | h) <;> [exact hs h; exact hw h])]
  · exact parse_degrees_dirs

/-- Witness for C9: the hemisphere letter `X` on a real numeral panics, and
the `W` letter negates the `N` value of the same numeral. -/
theorem claim_C9_witness :
    parse_nmea._parse_degrees (ascii "1020.12345") (ascii "X") = none ∧
    parse_nmea._parse_degrees (ascii "1020.12345") (ascii "W")
      = some (some (-((10335391 : ℚ) / 1000000))) :=
  ⟨claim_C9.1 (ascii "1020.12345") (ascii "X") (by decide) (by decide) (by decide)
      (by decide) (by decide),
   (claim_C9.2 (ascii "1020.12345") ((10335391 : ℚ) / 1000000) (by decide)).2.2⟩

/-- C7: on a silent transport — every read in the window errors out (no data)
and the trace eventually shows an elapsed time beyond the 1000 ms timeout —
`read_line` returns the no-connection sentinel (not a fault), and `update`
surfaces it to the caller as the `NoConnection` variant. -/
theorem claim_C7 :
    (∀ events : List (Nat × gps.ReadEvent),
      (∀ p ∈ events, p.2 = gps.ReadEvent.errRead) →
      (∃ p ∈ events, 1000 < p.1) →
      gps.read_line events = some (some gps.PortConnection.NoConnection)) ∧
    (∀ rest, gps.update gps.PortConnection.NoConnection rest
      = some gps.GpsSentence.NoConnection) := by
  constructor
  · have key : ∀ (events : List (Nat × gps.ReadEvent)) (output : List Nat),
        (∀ p ∈ events, p.2 = gps.ReadEvent.errRead) → (∃ p ∈ events, 1000 < p.1) →
        gps.readLineLoop output events = some (some gps.PortConnection.NoConnection) := by
      intro events
      induction events with
      | nil => intro output _ hex; simp at hex
      | cons p rest ih =>
        intro output hall hex
        obtain ⟨t, ev⟩ := p
        have hev : ev = gps.ReadEvent.errRead := hall (t, ev) (by simp)
        by_cases ht : 1000 < t
        · simp [gps.readLineLoop, ht]
        · simp only [gps.readLineLoop, ht, if_false, hev]
          apply ih output (fun q hq => hall q (List.mem_cons_of_mem _ hq))
          obtain ⟨q, hq, hqt⟩ := hex
          rcases List.mem_cons.mp hq with hq1 | hq2
          · rw [hq1] at hqt
            exact absurd hqt ht
          · exact ⟨q, hq2, hqt⟩
    exact fun events h1 h2 => key events [] h1 h2
  · intro rest
    rfl

/-- Witness for C7: a single errored read observed past the timeout. -/
theorem claim_C7_witness :
    gps.read_line [(1001, gps.ReadEvent.errRead)]
      = some (some gps.PortConnection.NoConnection) ∧
    gps.update gps.PortConnection.NoConnection []
      = some gps.GpsSentence.NoConnection :=
  ⟨claim_C7.1 [(1001, gps.ReadEvent.errRead)] (by simp) ⟨(1001, gps.ReadEvent.errRead),
      by simp, by simp⟩,
   claim_C7.2 []⟩

/-- C10: if the first successful transport read returns zero bytes while the
accumulation buffer is still empty (any earlier reads errored within the
timeout window), `read_line` panics — the newline test indexes the empty
buffer out of bounds — instead of continuing or returning a sentinel. -/
theorem claim_C10 (pre : List (Nat × gps.ReadEvent)) (t : Nat)
    (rest : List (Nat × gps.ReadEvent))
    (hpre : ∀ p ∈ pre, p.2 = gps.ReadEvent.errRead ∧ p.1 ≤ 1000) (ht : t ≤ 1000) :
    gps.read_line (pre ++ (t, gps.ReadEvent.okRead none) :: rest) = none := by
  unfold gps.read_line
  induction pre with
  | nil =>
    simp only [List.nil_append, gps.readLineLoop, Nat.not_lt.2 ht, if_false]
    rfl
  | cons p pre2 ih =>
    obtain ⟨t0, ev0⟩ := p
    have h0 := hpre (t0, ev0) (by simp)
    have hev : ev0 = gps.ReadEvent.errRead := h0.1
    have ht0 : ¬1000 < t0 := Nat.not_lt.2 h0.2
    simp only [List.cons_append, gps.readLineLoop, ht0, if_false, hev]
    exact ih fun q hq => hpre q (List.mem_cons_of_mem _ hq)

/-- Witness for C10: the very first read succeeds with zero bytes. -/
theorem claim_C10_witness :
    gps.read_line [(0, gps.ReadEvent.okRead none)] = none :=
  claim_C10 [] 0 [] (by simp) (by omega)

/-- C1 counterexample: a two-part GSV report whose continuation read yields
no-connection is not abandoned — `update` silently skips the missing part and
returns a normally-built GSV record from the first part alone, contradicting
the claim that a failed continuation read never produces a normally-returned
GSV record. -/
theorem claim_C1_counterexample :
    gps.update (gps.PortConnection.Valid (ascii "$GPGSV,2,1,05,01,40,083,46*43"))
      [gps.PortConnection.NoConnection]
      = some (gps.GpsSentence.GSV
          [{ id := some 1, elevation := some 40, azimuth := some 83, snr := some 46 }]) := by
  decide

/-- C1 (amended): during a multi-part GSV read, a continuation line that
fails validation/parsing — or whose decode faults — raises a fatal fault
abandoning the aggregation; but a no-connection (or invalid-bytes)
continuation read is silently skipped, and a trace of only missing
continuations ends with a normally-returned record built from the parts that
did arrive. -/
theorem claim_C1_amended :
    (∀ (k : Nat) rest acc s, parse_sentence s = some none →
      gps.gsvLoop (k + 1) (gps.PortConnection.Valid s :: rest) acc = none) ∧
    (∀ (k : Nat) rest acc s fields, parse_sentence s = some (some fields) →
      gsv.parse_gsv fields = none →
      gps.gsvLoop (k + 1) (gps.PortConnection.Valid s :: rest) acc = none) ∧
    (∀ (k : Nat) rest acc, gps.gsvLoop (k + 1) (gps.PortConnection.NoConnection :: rest) acc
      = gps.gsvLoop k rest acc) ∧
    (∀ (k : Nat) rest acc bs,
      gps.gsvLoop (k + 1) (gps.PortConnection.InvalidBytes bs :: rest) acc
      = gps.gsvLoop k rest acc) ∧
    (∀ (k : Nat) reads acc, (∀ p ∈ reads, p = gps.PortConnection.NoConnection) →
      gps.gsvLoop k reads acc = some acc) := by
  refine ⟨?_, ?_, ?_, ?_, ?_⟩
  · intro k rest acc s hps
    simp only [gps.gsvLoop, List.headD_cons, List.tail_cons, hps]
  · intro k rest acc s fields hps hgsv
    simp only [gps.gsvLoop, List.headD_cons, List.tail_cons, hps, hgsv]
  · intro k rest acc
    simp only [gps.gsvLoop, List.headD_cons, List.tail_cons]
  · intro k rest acc bs
    simp only [gps.gsvLoop, List.headD_cons, List.tail_cons]
  · intro k
    induction k with
    | zero => intro reads acc _; rfl
    | succ n ih =>
      intro reads acc h
      cases reads with
      | nil =>
        show gps.gsvLoop (n + 1) [] acc = some acc
        simp only [gps.gsvLoop, List.headD_nil, List.tail_nil]
        exact ih [] acc (by simp)
      | cons r rs =>
        have hr : r = gps.PortConnection.NoConnection := h r (by simp)
        subst hr
        simp only [gps.gsvLoop, List.headD_cons, List.tail_cons]
        exact ih rs acc fun p hp => h p (List.mem_cons_of_mem _ hp)

/-- Witness for C1 (amended): an unparsable continuation line panics, a
validated non-GSV continuation line panics in the decoder, and a loop fed
only no-connection reads returns the accumulated entries unchanged. -/
theorem claim_C1_witness :
    gps.gsvLoop 1 [gps.PortConnection.Valid (ascii "bad")] [] = none ∧
    gps.gsvLoop 1 [gps.PortConnection.Valid (ascii "$A,B*2F")] [] = none ∧
    gps.gsvLoop 2 [gps.PortConnection.NoConnection] [] = some [] :=
  ⟨claim_C1_amended.1 0 [] [] (ascii "bad") (by decide),
   claim_C1_amended.2.1 0 [] [] (ascii "$A,B*2F") [ascii "$A", ascii "B"]
     (by decide) (by decide),
   claim_C1_amended.2.2.2.2 2 [gps.PortConnection.NoConnection] [] (by simp)⟩

/-- C3 counterexample: the course/speed (VTG) decoder performs no header
check — on a field sequence with a GGA header it still returns a record
instead of raising a fatal decode fault. -/
theorem claim_C3_counterexample :
    vtg.parse_vtg [ascii "$GPGGA", ascii "1.0", ascii "T", ascii "2.0", ascii "M",
        ascii "3.0", ascii "N", ascii "4.0", ascii "K"]
      = some { true_course := some 1, magnetic_course := some 2,
               speed_knots := some 3, speed_kph := some 4, mode := vtg.Mode.Unknown } := by
  decide

/-- C3 (amended): the position-fix (GGA), satellite-geometry (GSA) and
satellites-in-view (GSV) decoders confirm their header and raise a fatal
decode fault on any mismatch; the minimum-navigation (RMC), course/speed
(VTG) and position-only (GLL) decoders perform no header check and return
records for mismatched headers when the positional fields suffice. -/
theorem claim_C3_amended :
    (∀ args header, args.get? 0 = some header →
      sliceR header 3 5 ≠ some (ascii "GG") → gga.parse_gga args = none) ∧
    (∀ args header, args.get? 0 = some header →
      sliceR header 3 6 ≠ some (ascii "GSA") → gsa.parse_gsa args = none) ∧
    (∀ args header, args.get? 0 = some header →
      sliceR header 3 6 ≠ some (ascii "GSV") → gsv.parse_gsv args = none) ∧
    rmc.parse_rmc [ascii "$GPGGA", ascii "123519", ascii "A", ascii "1020.12345",
        ascii "N", ascii "1020.12345", ascii "E", ascii "0.5", ascii "54.7",
        ascii "191194"]
      = some { utc := 123519, fix_status := true,
               latitude := some ((10335391 : ℚ) / 1000000),
               longitude := some ((10335391 : ℚ) / 1000000),
               speed := some ((1 : ℚ) / 2), course := some ((547 : ℚ) / 10),
               date := ascii "191194", mag_var := none } ∧
    vtg.parse_vtg [ascii "$GPRMC", ascii "1.0", ascii "T", ascii "2.0", ascii "M",
        ascii "3.0", ascii "N", ascii "4.0", ascii "K"]
      = some { true_course := some 1, magnetic_course := some 2,
               speed_knots := some 3, speed_kph := some 4, mode := vtg.Mode.Unknown } ∧
    gll.parse_gll [ascii "$GPGGA", ascii "1020.12345", ascii "N", ascii "1020.12345",
        ascii "E", ascii "0", ascii "A"]
      = some { latitude := some ((10335391 : ℚ) / 1000000),
               longitude := some ((10335391 : ℚ) / 1000000),
               utc := some 0, is_valid := true } := by
  refine ⟨?_, ?_, ?_, by decide, by decide, by decide⟩
  · intro args header h0 hsl
    unfold gga.parse_gga
    cases hs : sliceR header 3 5 with
    | none => simp only [h0, hs]
    | some h2 =>
      have hne : h2 ≠ ascii "GG" := fun he => hsl (by rw [hs, he])
      simp only [h0, hs, if_neg hne]
  · intro args header h0 hsl
    unfold gsa.parse_gsa
    cases hs : sliceR header 3 6 with
    | none => simp only [h0, hs]
    | some h3 =>
      have hne : h3 ≠ ascii "GSA" := fun he => hsl (by rw [hs, he])
      simp only [h0, hs, if_neg hne]
  · intro args header h0 hsl
    unfold gsv.parse_gsv
    cases hs : sliceR header 3 6 with
    | none => simp only [h0, hs]
    | some h3 =>
      have hne : h3 ≠ ascii "GSV" := fun he => hsl (by rw [hs, he])
      simp only [h0, hs, if_neg hne]

/-- Witness for C3 (amended): the three header-checking decoders fault on a
concrete mismatched header. -/
theorem claim_C3_witness :
    gga.parse_gga [ascii "$GPVTG"] = none ∧
    gsa.parse_gsa [ascii "$GPGGA"] = none ∧
    gsv.parse_gsv [ascii "$GPGGA"] = none :=
  ⟨claim_C3_amended.1 [ascii "$GPVTG"] (ascii "$GPVTG") rfl (by decide),
   claim_C3_amended.2.1 [ascii "$GPGGA"] (ascii "$GPGGA") rfl (by decide),
   claim_C3_amended.2.2.1 [ascii "$GPGGA"] (ascii "$GPGGA") rfl (by decide)⟩

/-- C2 counterexample: the position-fix (GGA) decoder does not default its
mandatory time field — on a field sequence whose time token is syntactically
unparsable it raises a fatal decode fault instead of returning a record. -/
theorem claim_C2_counterexample :
    gga.parse_gga [ascii "$GPGGA", ascii "xyz"] = none := by decide

/-- C2 (amended): the minimum-navigation (RMC) decoder populates its
mandatory time field best-effort, defaulting to 0 whenever the time token is
unparsable, and the GGA decoder defaults its mandatory fix-status field on
any unrecognised code; but the GGA decoder raises a fatal decode fault when
its mandatory time token is unparsable (or absent) instead of defaulting. -/
theorem claim_C2_amended :
    (∀ args r, rmc.parse_rmc args = some r → parseFloat (args.getD 1 []) = none →
      r.utc = 0) ∧
    (∀ args, parseFloat (args.getD 1 []) = none → gga.parse_gga args = none) ∧
    (∀ args r, gga.parse_gga args = some r → args.getD 6 [] ≠ ascii "0" →
      args.getD 6 [] ≠ ascii "1" → args.getD 6 [] ≠ ascii "2" →
      r.sat_fix = gga.SatFix.NoFix) := by
  refine ⟨?_, ?_, ?_⟩
  · intro args r h hpf
    unfold rmc.parse_rmc at h
    split at h
    · exact absurd h (by simp)
    rename_i t1 ht1
    have hgd : args.getD 1 [] = t1 := by
      rw [List.getD_eq_getD_get? args [] 1, ht1]
      rfl
    rw [hgd] at hpf
    simp only [hpf, Option.getD_none] at h
    repeat' split at h
    all_goals try exact absurd h (Option.noConfusion h)
    all_goals
      injection h with h2
      rw [← h2]
  · intro args hpf
    unfold gga.parse_gga
    cases h0 : args.get? 0 with
    | none => simp only [h0]
    | some header =>
      cases hs : sliceR header 3 5 with
      | none => simp only [h0, hs]
      | some h2 =>
        by_cases hgg : h2 = ascii "GG"
        · cases h1 : args.get? 1 with
          | none => simp only [h0, hs, if_pos hgg, h1]
          | some t1 =>
            have hgd : args.getD 1 [] = t1 := by
              rw [List.getD_eq_getD_get? args [] 1, h1]
              rfl
            rw [hgd] at hpf
            simp only [h0, hs, if_pos hgg, h1, hpf]
        · simp only [h0, hs, if_neg hgg]
  · intro args r h h0 h1 h2
    unfold gga.parse_gga at h
    repeat' split at h
    all_goals first
      | exact Option.noConfusion h
      | (simp_all [List.getD_eq_getD_get?]; done)
      | (injection h with h3; subst h3; rfl)

/-- Witness for C2 (amended): a concrete RMC sequence with unparsable time
decodes with time 0, and the GGA decoder faults on the analogous sequence. -/
theorem claim_C2_witness :
    (rmc.RmcData.utc
      { utc := 0, fix_status := true,
        latitude := some ((10335391 : ℚ) / 1000000),
        longitude := some ((10335391 : ℚ) / 1000000),
        speed := some ((1 : ℚ) / 2), course := some ((547 : ℚ) / 10),
        date := ascii "191194", mag_var := none }) = 0 ∧
    gga.parse_gga [ascii "$GPGGA", ascii "xy"] = none :=
  ⟨claim_C2_amended.1 [ascii "$GPRMC", ascii "xyz", ascii "A", ascii "1020.12345",
      ascii "N", ascii "1020.12345", ascii "E", ascii "0.5", ascii "54.7",
      ascii "191194"] _ (by decide) (by decide),
   claim_C2_amended.2.1 [ascii "$GPGGA", ascii "xy"] (by decide)⟩

theorem sliceStr_3_6_take2 (l v : List Nat) (h : sliceStr l 3 6 = some v)
    (hv : v.getD 2 0 < 128) : sliceStr l 3 5 = some (v.take 2) := by
  unfold sliceStr at h ⊢
  split at h
  · rename_i hc
    obtain ⟨hc1, hc2, hc3, hc4⟩ := hc
    injection h with hv2
    have hvlen : v.length = 3 := by
      rw [← hv2]
      simp only [List.length_take, List.length_drop]
      omega
    have e1 : v.get? 2 = l.get? 5 := by
      rw [← hv2, show (6 : Nat) - 3 = 3 from rfl,
        List.get?_take (by omega : (2 : Nat) < 3), List.get?_drop]
    have e2 : v.get? 2 = some (v.getD 2 0) := by
      cases hq : v.get? 2 with
      | none => exact absurd (List.get?_eq_none.mp hq) (by omega)
      | some b =>
        rw [List.getD_eq_getD_get? v 0 2, hq]
        rfl
    have hg5 : l.get? 5 = some (v.getD 2 0) := by rw [← e1, e2]
    have hbd5 : isCharBoundary l 5 = true := by
      unfold isCharBoundary
      rw [if_neg (by omega : ¬(5 : Nat) = 0)]
      simp only [hg5, Bool.or_eq_true, decide_eq_true_eq]
      exact Or.inl hv
    rw [if_pos ⟨by omega, by omega, hc3, hbd5⟩, ← hv2,
      show (6 : Nat) - 3 = 3 from rfl, List.take_take]
    rfl
  · exact Option.noConfusion h

/-- C6 counterexample: two validated lines on which `update` panics instead
of returning the invalid-sentence sentinel — `$A,B*2F`, whose header token
has only two characters, and the checksum-correct UTF-8 line `$GPGé,A*57`,
whose header slice endpoint 5 falls inside the two-byte `é`. -/
theorem claim_C6_counterexample :
    gps.update (gps.PortConnection.Valid (ascii "$A,B*2F")) [] = none ∧
    gps.update (gps.PortConnection.Valid (ascii "$A,B*2F")) []
      ≠ some gps.GpsSentence.InvalidSentence ∧
    parse_sentence [36, 71, 80, 71, 195, 169, 44, 65, 42, 53, 55]
      = some (some [[36, 71, 80, 71, 195, 169], [65]]) ∧
    gps.update (gps.PortConnection.Valid
      [36, 71, 80, 71, 195, 169, 44, 65, 42, 53, 55]) [] = none := by
  exact ⟨by decide, by decide, by decide, by decide⟩

/-- C6 (amended): the dispatcher selects the decoder from characters 4–6 of
the header token (`GG` prefix → position-fix, `VTG`/`GSA`/`GLL`/`RMC`/`GSV`
→ their decoders); a validated field sequence whose header admits the byte
slices — in range and on character boundaries — but matches none of these
yields the invalid-sentence sentinel, while a header too short for the
slices (or with a slice endpoint inside a multi-byte character) causes a
fatal indexing fault rather than the sentinel. -/
theorem claim_C6_amended :
    (∀ s fields header rest, parse_sentence s = some (some fields) →
      fields.get? 0 = some header → sliceStr header 3 5 = some (ascii "GG") →
      gps.update (gps.PortConnection.Valid s) rest
        = (gga.parse_gga fields).map gps.GpsSentence.GGA) ∧
    (∀ s fields header rest, parse_sentence s = some (some fields) →
      fields.get? 0 = some header → sliceStr header 3 6 = some (ascii "VTG") →
      gps.update (gps.PortConnection.Valid s) rest
        = (vtg.parse_vtg fields).map gps.GpsSentence.VTG) ∧
    (∀ s fields header rest, parse_sentence s = some (some fields) →
      fields.get? 0 = some header → sliceStr header 3 6 = some (ascii "GSA") →
      gps.update (gps.PortConnection.Valid s) rest
        = (gsa.parse_gsa fields).map gps.GpsSentence.GSA) ∧
    (∀ s fields header rest, parse_sentence s = some (some fields) →
      fields.get? 0 = some header → sliceStr header 3 6 = some (ascii "GLL") →
      gps.update (gps.PortConnection.Valid s) rest
        = (gll.parse_gll fields).map gps.GpsSentence.GLL) ∧
    (∀ s fields header rest, parse_sentence s = some (some fields) →
      fields.get? 0 = some header → sliceStr header 3 6 = some (ascii "RMC") →
      gps.update (gps.PortConnection.Valid s) rest
        = (rmc.parse_rmc fields).map gps.GpsSentence.RMC) ∧
    (∀ s fields header rest f1 n sats, parse_sentence s = some (some fields) →
      fields.get? 0 = some header → sliceStr header 3 6 = some (ascii "GSV") →
      fields.get? 1 = some f1 → parseI32 f1 = some n →
      gsv.parse_gsv fields = some sats →
      gps.update (gps.PortConnection.Valid s) rest
        = (gps.gsvLoop (n - 1).toNat rest sats).map gps.GpsSentence.GSV) ∧
    (∀ s fields header h2 h3 rest, parse_sentence s = some (some fields) →
      fields.get? 0 = some header → sliceStr header 3 5 = some h2 → h2 ≠ ascii "GG" →
      sliceStr header 3 6 = some h3 → h3 ≠ ascii "VTG" → h3 ≠ ascii "GSA" →
      h3 ≠ ascii "GLL" → h3 ≠ ascii "RMC" → h3 ≠ ascii "GSV" →
      gps.update (gps.PortConnection.Valid s) rest
        = some gps.GpsSentence.InvalidSentence) ∧
    (∀ s fields header rest, parse_sentence s = some (some fields) →
      fields.get? 0 = some header → header.length < 5 →
      gps.update (gps.PortConnection.Valid s) rest = none) ∧
    (∀ s fields header rest, parse_sentence s = some (some fields) →
      fields.get? 0 = some header → sliceStr header 3 5 = none →
      gps.update (gps.PortConnection.Valid s) rest = none) := by
  refine ⟨?_, ?_, ?_, ?_, ?_, ?_, ?_, ?_, ?_⟩
  · intro s fields header rest hps hh0 hsl
    unfold gps.update
    simp only [hps, hh0, hsl]
    rw [if_true]
  · intro s fields header rest hps hh0 hsl
    have h2 : sliceStr header 3 5 = some (ascii "VT") := by
      rw [sliceStr_3_6_take2 _ _ hsl (by decide)]
      decide
    unfold gps.update
    simp only [hps, hh0, h2, hsl]
    rw [if_neg (by decide : ¬(ascii "VT" = ascii "GG")), if_true]
  · intro s fields header rest hps hh0 hsl
    have h2 : sliceStr header 3 5 = some (ascii "GS") := by
      rw [sliceStr_3_6_take2 _ _ hsl (by decide)]
      decide
    unfold gps.update
    simp only [hps, hh0, h2, hsl]
    rw [if_neg (by decide : ¬(ascii "GS" = ascii "GG")),
      if_neg (by decide : ¬(ascii "GSA" = ascii "VTG")), if_true]
  · intro s fields header rest hps hh0 hsl
    have h2 : sliceStr header 3 5 = some (ascii "GL") := by
      rw [sliceStr_3_6_take2 _ _ hsl (by decide)]
      decide
    unfold gps.update
    simp only [hps, hh0, h2, hsl]
    rw [if_neg (by decide : ¬(ascii "GL" = ascii "GG")),
      if_neg (by decide : ¬(ascii "GLL" = ascii "VTG")),
      if_neg (by decide : ¬(ascii "GLL" = ascii "GSA")), if_true]
  · intro s fields header rest hps hh0 hsl
    have h2 : sliceStr header 3 5 = some (ascii "RM") := by
      rw [sliceStr_3_6_take2 _ _ hsl (by decide)]
      decide
    unfold gps.update
    simp only [hps, hh0, h2, hsl]
    rw [if_neg (by decide : ¬(ascii "RM" = ascii "GG")),
      if_neg (by decide : ¬(ascii "RMC" = ascii "VTG")),
      if_neg (by decide : ¬(ascii "RMC" = ascii "GSA")),
      if_neg (by decide : ¬(ascii "RMC" = ascii "GLL")), if_true]
  · intro s fields header rest f1 n sats hps hh0 hsl hh1 hn hsats
    have h2 : sliceStr header 3 5 = some (ascii "GS") := by
      rw [sliceStr_3_6_take2 _ _ hsl (by decide)]
      decide
    unfold gps.update
    simp only [hps, hh0, h2, hsl, hh1, hn, hsats]
    rw [if_neg (by decide : ¬(ascii "GS" = ascii "GG")),
      if_neg (by decide : ¬(ascii "GSV" = ascii "VTG")),
      if_neg (by decide : ¬(ascii "GSV" = ascii "GSA")),
      if_neg (by decide : ¬(ascii "GSV" = ascii "GLL")),
      if_neg (by decide : ¬(ascii "GSV" = ascii "RMC")), if_true]
  · intro s fields header h2 h3 rest hps hh0 h35 hgg h36 hvtg hgsa hgll hrmc hgsv
    unfold gps.update
    simp only [hps, hh0, h35, h36]
    rw [if_neg hgg, if_neg hvtg, if_neg hgsa, if_neg hgll, if_neg hrmc, if_neg hgsv]
  · intro s fields header rest hps hh0 hlen
    have h35 : sliceStr header 3 5 = none := by
      unfold sliceStr
      rw [if_neg]
      rintro ⟨-, hb, -, -⟩
      omega
    unfold gps.update
    simp only [hps, hh0, h35]
  · intro s fields header rest hps hh0 h35
    unfold gps.update
    simp only [hps, hh0, h35]

/-- Witness for C6 (amended): the validated but unmodelled sentence
`$GPZDA,1*55` yields the invalid-sentence sentinel, the validated
two-character header `$A` is a fatal fault, and so is the validated header
`$GPGé` whose slice endpoint is not a character boundary. -/
theorem claim_C6_witness :
    gps.update (gps.PortConnection.Valid (ascii "$GPZDA,1*55")) []
      = some gps.GpsSentence.InvalidSentence ∧
    gps.update (gps.PortConnection.Valid (ascii "$A,B*2F")) [] = none ∧
    gps.update (gps.PortConnection.Valid
      [36, 71, 80, 71, 195, 169, 44, 65, 42, 53, 55]) [] = none :=
  ⟨claim_C6_amended.2.2.2.2.2.2.1 (ascii "$GPZDA,1*55")
      [ascii "$GPZDA", ascii "1"] (ascii "$GPZDA") (ascii "ZD") (ascii "ZDA") []
      (by decide) (by decide) (by decide) (by decide) (by decide) (by decide)
      (by decide) (by decide) (by decide) (by decide),
   claim_C6_amended.2.2.2.2.2.2.2.1 (ascii "$A,B*2F") [ascii "$A", ascii "B"]
      (ascii "$A") [] (by decide) (by decide) (by decide),
   claim_C6_amended.2.2.2.2.2.2.2.2 [36, 71, 80, 71, 195, 169, 44, 65, 42, 53, 55]
      [[36, 71, 80, 71, 195, 169], [65]] [36, 71, 80, 71, 195, 169] []
      (by decide) (by decide) (by decide)⟩

end AdafruitGps
